import Mathlib

/-! Verification development for the weather advisory coordination layer.

The development gives a shallow embedding of the two services:
the weather service (weather code normalization and the GetCurrentWeather
handler) and the advisor service (curated-table geocoding with remote
fallback, the sequential per-city gather loop, single-shot advice
generation, and streaming advice generation).  External HTTP calls and the
generative backend are modelled as explicit environment parameters; the
observable outbound calls are recorded in an event trace so that claims
about which calls are or are not issued can be stated directly.
-/

namespace WeatherAdvisor

/-- Outcome of one outbound HTTP request: a transport failure, or a status
code together with the result of decoding the body. -/
inductive HttpReply (α : Type) : Type
  | transportErr (msg : String)
  | response (status : Nat) (body : Except String α)

/-- Generic list flat-map, kept local so its equations are stable. -/
def flatMapL {α β : Type} (f : α → List β) : List α → List β
  | [] => []
  | a :: as => f a ++ flatMapL f as

/-- Decidable equality of exception results. -/
def exceptDecEq {ε α : Type} [DecidableEq ε] [DecidableEq α] :
    (a b : Except ε α) → Decidable (a = b)
  | Except.error x, Except.error y =>
    if h : x = y then isTrue (by rw [h]) else isFalse fun hc => h (Except.error.inj hc)
  | Except.error _, Except.ok _ => isFalse fun hc => Except.noConfusion hc
  | Except.ok _, Except.error _ => isFalse fun hc => Except.noConfusion hc
  | Except.ok x, Except.ok y =>
    if h : x = y then isTrue (by rw [h]) else isFalse fun hc => h (Except.ok.inj hc)

instance {ε α : Type} [DecidableEq ε] [DecidableEq α] : DecidableEq (Except ε α) :=
  exceptDecEq

/-- Boolean test that the second char list is a prefix of the first. -/
def startsWithL : List Char → List Char → Bool
  | _, [] => true
  | [], _ :: _ => false
  | c :: cs, p :: ps => c == p && startsWithL cs ps

/-- Boolean test that the second char list occurs inside the first. -/
def hasSubL : List Char → List Char → Bool
  | [], pat => pat.isEmpty
  | c :: cs, pat => startsWithL (c :: cs) pat || hasSubL cs pat

/-- Model of the Go function strings.Contains. -/
def containsSub (s pat : String) : Bool := hasSubL s.data pat.data

/-- Zero-pad a digit string on the left to the given width. -/
def padZeros (w : Nat) (s : String) : String :=
  if s.length < w then String.mk (List.replicate (w - s.length) '0') ++ s else s

/-- Fixed-point decimal formatting of a rational, mirroring the Go format
verb for floats with the given number of fractional digits. -/
def fmtFixed (dec : Nat) (q : Rat) : String :=
  let p : Nat := 10 ^ dec
  let n : Nat := q.num.natAbs * p
  let d : Nat := q.den
  let digits : Nat := n / d + (if d ≤ 2 * (n % d) then 1 else 0)
  let units : Nat := digits / p
  let frac : Nat := digits % p
  let sign : String := if q.num < 0 then "-" else ""
  sign ++ toString units ++ "." ++ padZeros dec (toString frac)

/-- Current-conditions block decoded from the weather provider response. -/
structure OpenMeteoCurrent : Type where
  temperature : Rat
  humidity : Int
  windSpeed : Rat
  windDir : Int
  weatherCode : Int
deriving DecidableEq

/-- Request to the weather service: a coordinate. -/
structure WeatherRequest : Type where
  latitude : Rat
  longitude : Rat
deriving DecidableEq

/-- Response of the weather service. -/
structure WeatherResponse : Type where
  location : String
  temperature : Rat
  feelsLike : Rat
  tempMin : Rat
  tempMax : Rat
  pressure : Int
  humidity : Int
  windSpeed : Rat
  windDeg : Int
  timestamp : Int
  description : String
deriving DecidableEq

/-- Errors of the weather service handler, one per failure site. -/
inductive WeatherErr : Type
  | apiRequestFailed (msg : String)
  | apiStatus (code : Nat)
  | decodeFailed (msg : String)
deriving DecidableEq

/-- Fixed table mapping provider weather codes to short descriptions. -/
def descriptions : List (Int × String) :=
  [ (0, "clear sky"), (1, "mainly clear"), (2, "partly cloudy"), (3, "overcast"),
    (45, "fog"), (48, "depositing rime fog"), (51, "light drizzle"), (53, "moderate drizzle"),
    (55, "dense drizzle"), (61, "slight rain"), (63, "moderate rain"), (65, "heavy rain"),
    (71, "slight snow"), (73, "moderate snow"), (75, "heavy snow"), (80, "rain showers"),
    (81, "moderate rain showers"), (82, "violent rain showers"), (95, "thunderstorm") ]

/-- Lookup of a weather code with the sentinel fallback. -/
def getWeatherDescription (code : Int) : String :=
  match descriptions.lookup code with
  | some desc => desc
  | none => "unknown"

/-- Environment supplying the weather provider HTTP reply, keyed by the
coordinate the request is issued for. -/
def MeteoEnv : Type := Rat → Rat → HttpReply OpenMeteoCurrent

/-- Model of the GetCurrentWeather handler: issue the provider request,
check status, decode, and normalize into the fixed response shape. -/
def GetCurrentWeather (m : MeteoEnv) (now : Int) (req : WeatherRequest) :
    Except WeatherErr WeatherResponse :=
  match m req.latitude req.longitude with
  | HttpReply.transportErr msg => Except.error (WeatherErr.apiRequestFailed msg)
  | HttpReply.response st body =>
    if st ≠ 200 then Except.error (WeatherErr.apiStatus st)
    else
      match body with
      | Except.error msg => Except.error (WeatherErr.decodeFailed msg)
      | Except.ok cur =>
        Except.ok
          { location := fmtFixed 2 req.latitude ++ "," ++ fmtFixed 2 req.longitude
            temperature := cur.temperature
            feelsLike := cur.temperature
            tempMin := cur.temperature
            tempMax := cur.temperature
            pressure := 1013
            humidity := cur.humidity
            windSpeed := cur.windSpeed
            windDeg := cur.windDir
            timestamp := now
            description := getWeatherDescription cur.weatherCode }

/-- One geocoding hit as decoded from the geocoding provider. -/
structure GeoResult : Type where
  name : String
  latitude : Rat
  longitude : Rat
  country : String
  admin1 : String
deriving DecidableEq

/-- Body of a geocoding provider response. -/
structure GeocodeResponse : Type where
  results : List GeoResult
deriving DecidableEq

/-- Environment supplying the geocoding provider HTTP reply, keyed by the
queried name. -/
def GeoEnv : Type := String → HttpReply GeocodeResponse

/-- Errors of the coordinate resolver, one per failure site. -/
inductive GeoErr : Type
  | geocodingFailed (msg : String)
  | geocodingStatus (code : Nat)
  | geoDecodeFailed (msg : String)
  | locationNotFound (loc : String)
deriving DecidableEq

/-- Curated in-process city table consulted before any network lookup. -/
def cityCoords : List (String × (Rat × Rat)) :=
  [ ( "New York", (40.7128, -74.0060) ),
    ( "London", (51.5074, -0.1278) ),
    ( "Tokyo", (35.6762, 139.6503) ),
    ( "Paris", (48.8566, 2.3522) ),
    ( "Los Angeles", (34.0522, -118.2437) ),
    ( "Chicago", (41.8781, -87.6298) ),
    ( "Sydney", (-33.8688, 151.2093) ) ]

/-- Names of the curated table entries. -/
def curatedNames : List String := cityCoords.map Prod.fst

/-- Hint text appended to the not-found message. -/
def curatedHint : String :=
  " (try: New York, London, Tokyo, Paris, Los Angeles, Chicago, Sydney)"

/-- Rendering of resolver errors as the error strings built in the code. -/
def renderGeoErr : GeoErr → String
  | GeoErr.geocodingFailed m => "geocoding failed: " ++ m
  | GeoErr.geocodingStatus st => "geocoding API returned status " ++ toString st
  | GeoErr.geoDecodeFailed m => "decode failed: " ++ m
  | GeoErr.locationNotFound loc => "location not found: " ++ loc ++ curatedHint

/-- Observable events of one advice request: per-city resolution, outbound
geocoding network calls, weather fetches, and generation calls. -/
inductive Ev : Type
  | resolveCity (name : String)
  | geoNet (query : String)
  | fetchWeather (lat lon : Rat)
  | genCall (prompt : String)
deriving DecidableEq

/-- Remote fallback of the resolver: issue the geocoding request, check the
status, decode, and take the first result. -/
def geocodeFallback (g : GeoEnv) (loc : String) : Except GeoErr (Rat × Rat) × List Ev :=
  match g loc with
  | HttpReply.transportErr m =>
    (Except.error (GeoErr.geocodingFailed m), [Ev.resolveCity loc, Ev.geoNet loc])
  | HttpReply.response st body =>
    if st ≠ 200 then
      (Except.error (GeoErr.geocodingStatus st), [Ev.resolveCity loc, Ev.geoNet loc])
    else
      match body with
      | Except.error m =>
        (Except.error (GeoErr.geoDecodeFailed m), [Ev.resolveCity loc, Ev.geoNet loc])
      | Except.ok geo =>
        match geo.results with
        | [] =>
          (Except.error (GeoErr.locationNotFound loc), [Ev.resolveCity loc, Ev.geoNet loc])
        | r :: _ =>
          (Except.ok (r.latitude, r.longitude), [Ev.resolveCity loc, Ev.geoNet loc])

/-- Model of the resolver: curated table first, remote fallback second.
Returns the result together with the trace of observable events. -/
def geocodeCity (g : GeoEnv) (loc : String) : Except GeoErr (Rat × Rat) × List Ev :=
  match cityCoords.lookup loc with
  | some coords => (Except.ok coords, [Ev.resolveCity loc])
  | none => geocodeFallback g loc

/-- Summary line the orchestrator builds for one city. -/
def weatherInfoLine (w : WeatherResponse) : String :=
  "City: " ++ w.location ++ ", Temp: " ++ fmtFixed 1 w.temperature ++
    "°C, Condition: " ++ w.description ++ ", Humidity: " ++ toString w.humidity ++
    "%, Wind: " ++ fmtFixed 1 w.windSpeed ++ " m/s"

/-- One city in an advice request. -/
structure CityData : Type where
  location : String
deriving DecidableEq

/-- Per-city gather error: which city failed and at which step. -/
inductive GatherErr : Type
  | geo (city : String) (e : GeoErr)
  | weather (city : String) (e : WeatherErr)
deriving DecidableEq

/-- City named by a gather error. -/
def errCity : GatherErr → String
  | GatherErr.geo c _ => c
  | GatherErr.weather c _ => c

/-- Rendering of weather service errors as the error strings in the code. -/
def renderWeatherErr : WeatherErr → String
  | WeatherErr.apiRequestFailed m => "API request failed: " ++ m
  | WeatherErr.apiStatus st => "API status: " ++ toString st
  | WeatherErr.decodeFailed m => "decode failed: " ++ m

/-- Rendering of gather errors as the wrapped error strings in the code. -/
def renderGatherErr : GatherErr → String
  | GatherErr.geo c e => "geocoding failed for " ++ c ++ ": " ++ renderGeoErr e
  | GatherErr.weather c e => "weather request failed for " ++ c ++ ": " ++ renderWeatherErr e

/-- Body of the per-city loop: resolve the city, then fetch its weather,
producing its summary line or the first error, plus the event trace. -/
def cityOutcome (g : GeoEnv) (m : MeteoEnv) (now : Int) (c : CityData) :
    Except GatherErr String × List Ev :=
  match geocodeCity g c.location with
  | (Except.error e, tr) => (Except.error (GatherErr.geo c.location e), tr)
  | (Except.ok p, tr) =>
    match GetCurrentWeather m now ⟨p.1, p.2⟩ with
    | Except.error e =>
      (Except.error (GatherErr.weather c.location e), tr ++ [Ev.fetchWeather p.1 p.2])
    | Except.ok w =>
      (Except.ok (weatherInfoLine w), tr ++ [Ev.fetchWeather p.1 p.2])

/-- The sequential gather loop over the requested cities: strictly in input
order, aborting at the first failing city. -/
def gatherWeather (g : GeoEnv) (m : MeteoEnv) (now : Int) :
    List CityData → Except GatherErr (List String) × List Ev
  | [] => (Except.ok [], [])
  | c :: cs =>
    match cityOutcome g m now c with
    | (Except.error e, tr) => (Except.error e, tr)
    | (Except.ok line, tr) =>
      match gatherWeather g m now cs with
      | (Except.error e, tr2) => (Except.error e, tr ++ tr2)
      | (Except.ok lines, tr2) => (Except.ok (line :: lines), tr ++ tr2)

/-- One part of a generation candidate: a text segment or some other kind. -/
inductive GenPart : Type
  | text (s : String)
  | nonText
deriving DecidableEq

/-- One generation candidate. -/
structure Candidate : Type where
  parts : List GenPart
deriving DecidableEq

/-- One response of the generative backend. -/
structure GenResult : Type where
  candidates : List Candidate
deriving DecidableEq

/-- Text carried by a part, when it is a text part. -/
def partText : GenPart → Option String
  | GenPart.text s => some s
  | GenPart.nonText => none

/-- Text segments of one candidate, in order. -/
def candTexts (c : Candidate) : List String := c.parts.filterMap partText

/-- Text segments of the first candidate of a response, empty if none. -/
def firstCandTexts : List Candidate → List String
  | [] => []
  | c :: _ => candTexts c

/-- Text segments of every candidate of one streamed response, in order. -/
def respTexts (r : GenResult) : List String := flatMapL candTexts r.candidates

/-- Separator between per-city lines in the prompt. -/
def lineSep : String := "\n"

/-- The prompt assembled from the per-city summary lines. -/
def buildPrompt (weatherData : List String) : String :=
  "Weather advisor. Based on this data provide practical advice:\n\n" ++
    String.intercalate lineSep weatherData ++
    "\n\nInclude: summary, clothing advice, activity suggestions, warnings. Keep it concise."

/-- Errors of single-shot generation. -/
inductive GenErr : Type
  | geminiFailed (msg : String)
  | noResponse
deriving DecidableEq

/-- Model of the single-shot generation step: build the prompt, call the
backend, and concatenate the text parts of the first candidate. -/
def generateAdvice (gen : String → Except String GenResult) (weatherData : List String) :
    Except GenErr String × List Ev :=
  match gen (buildPrompt weatherData) with
  | Except.error m =>
    (Except.error (GenErr.geminiFailed m), [Ev.genCall (buildPrompt weatherData)])
  | Except.ok resp =>
    match resp.candidates with
    | [] => (Except.error GenErr.noResponse, [Ev.genCall (buildPrompt weatherData)])
    | c :: _ =>
      (Except.ok (String.join (candTexts c)), [Ev.genCall (buildPrompt weatherData)])

/-- One fragment sent over the streaming channel. -/
structure AdviceFragment : Type where
  chunk : String
  isComplete : Bool
deriving DecidableEq

/-- A non-final fragment carrying one text chunk. -/
def mkChunkFrag (t : String) : AdviceFragment := ⟨t, false⟩

/-- The terminal fragment: empty text, completion flag set. -/
def finalFragment : AdviceFragment := ⟨ "", true⟩

/-- Behavior of the generation iterator for one prompt: the responses it
yields, then the error its final step reports. -/
structure StreamIter : Type where
  items : List GenResult
  endErr : String
deriving DecidableEq

/-- Text segments produced across the whole iteration, in order. -/
def genTexts (it : StreamIter) : List String := flatMapL respTexts it.items

/-- The complete advisory message of one streamed generation. -/
def fullText (it : StreamIter) : String := String.join (genTexts it)

/-- Marker substring of the normal end-of-stream error. -/
def eofMark : String := "EOF"

/-- Second marker substring of the normal end-of-stream error. -/
def stopMark : String := "iterator stopped"

/-- The code treats an iterator error as normal exhaustion exactly when its
message contains one of the two marker substrings. -/
def isEndOfStream (e : String) : Bool :=
  containsSub e eofMark || containsSub e stopMark

/-- Errors of streaming generation. -/
inductive StreamErr : Type
  | streamingFailed (msg : String)
  | sendChunkFailed
  | sendFinalFailed
deriving DecidableEq

/-- Send the chunks one by one, aborting at the first failing send; returns
the delivered fragments, whether all sends succeeded, and the index of the
next send. -/
def sendChunks (sendOk : Nat → Bool) : Nat → List String → List AdviceFragment × Bool × Nat
  | i, [] => ([], true, i)
  | i, t :: ts =>
    if sendOk i then
      (mkChunkFrag t :: (sendChunks sendOk (i + 1) ts).1,
        (sendChunks sendOk (i + 1) ts).2.1, (sendChunks sendOk (i + 1) ts).2.2)
    else ([], false, i)

/-- Model of the streaming generation loop: drain the iterator sending one
non-final fragment per text part; on the terminating error, either send the
terminal fragment (normal exhaustion) or fail without one. -/
def streamAdviceGeneration (streamGen : String → StreamIter) (sendOk : Nat → Bool)
    (weatherData : List String) : Except StreamErr Unit × List Ev × List AdviceFragment :=
  if (sendChunks sendOk 0 (genTexts (streamGen (buildPrompt weatherData)))).2.1 then
    if isEndOfStream (streamGen (buildPrompt weatherData)).endErr then
      if sendOk (sendChunks sendOk 0 (genTexts (streamGen (buildPrompt weatherData)))).2.2 then
        (Except.ok (), [Ev.genCall (buildPrompt weatherData)],
          (sendChunks sendOk 0 (genTexts (streamGen (buildPrompt weatherData)))).1
            ++ [finalFragment])
      else
        (Except.error StreamErr.sendFinalFailed, [Ev.genCall (buildPrompt weatherData)],
          (sendChunks sendOk 0 (genTexts (streamGen (buildPrompt weatherData)))).1)
    else
      (Except.error (StreamErr.streamingFailed (streamGen (buildPrompt weatherData)).endErr),
        [Ev.genCall (buildPrompt weatherData)],
        (sendChunks sendOk 0 (genTexts (streamGen (buildPrompt weatherData)))).1)
  else
    (Except.error StreamErr.sendChunkFailed, [Ev.genCall (buildPrompt weatherData)],
      (sendChunks sendOk 0 (genTexts (streamGen (buildPrompt weatherData)))).1)

/-- Advisor-level error: a gather failure or a generation failure. -/
inductive AdvisorErr (γ : Type) : Type
  | gatherFailed (e : GatherErr)
  | generationFailed (e : γ)
deriving DecidableEq

/-- Model of the single-shot advice handler. -/
def GetAdvice (g : GeoEnv) (m : MeteoEnv) (now : Int)
    (gen : String → Except String GenResult) (cities : List CityData) :
    Except (AdvisorErr GenErr) String × List Ev :=
  match gatherWeather g m now cities with
  | (Except.error e, tr) => (Except.error (AdvisorErr.gatherFailed e), tr)
  | (Except.ok weatherData, tr) =>
    match generateAdvice gen weatherData with
    | (Except.error e, tr2) => (Except.error (AdvisorErr.generationFailed e), tr ++ tr2)
    | (Except.ok advice, tr2) => (Except.ok advice, tr ++ tr2)

/-- Model of the streaming advice handler: gather, then stream generation;
its third component is the sequence of fragments actually delivered. -/
def StreamAdvice (g : GeoEnv) (m : MeteoEnv) (now : Int)
    (streamGen : String → StreamIter) (sendOk : Nat → Bool) (cities : List CityData) :
    Except (AdvisorErr StreamErr) Unit × List Ev × List AdviceFragment :=
  match gatherWeather g m now cities with
  | (Except.error e, tr) => (Except.error (AdvisorErr.gatherFailed e), tr, [])
  | (Except.ok weatherData, tr) =>
    match streamAdviceGeneration streamGen sendOk weatherData with
    | (Except.error e, tr2, frags) => (Except.error (AdvisorErr.generationFailed e), tr ++ tr2, frags)
    | (Except.ok _, tr2, frags) => (Except.ok (), tr ++ tr2, frags)

/-- Boolean success test for an exception result. -/
def exceptOk {ε α : Type} : Except ε α → Bool
  | Except.ok _ => true
  | Except.error _ => false

/-- Summary lines of a successful gather, empty on failure; used only in
theorem statements. -/
def gatherLines (g : GeoEnv) (m : MeteoEnv) (now : Int) (cities : List CityData) :
    List String :=
  match gatherWeather g m now cities with
  | (Except.ok lines, _) => lines
  | (Except.error _, _) => []

/-- Summary line of one city when its gather step succeeds, empty string on
failure; used only in theorem statements. -/
def cityLineD (g : GeoEnv) (m : MeteoEnv) (now : Int) (c : CityData) : String :=
  match cityOutcome g m now c with
  | (Except.ok s, _) => s
  | (Except.error _, _) => ""

/-- Event trace of one city gather step. -/
def cityTraceD (g : GeoEnv) (m : MeteoEnv) (now : Int) (c : CityData) : List Ev :=
  (cityOutcome g m now c).2

/-! Concrete fixtures: environments and inputs used to instantiate the
theorems on concrete data. -/

/-- The empty string. -/
def emptyStr : String := ""

/-- A curated city name. -/
def nyName : String := "New York"

/-- A name absent from the curated table. -/
def nowhereName : String := "Nowhereville"

/-- Another curated city name. -/
def tokyoName : String := "Tokyo"

/-- A mapped description used in witnesses. -/
def thunderStr : String := "thunderstorm"

/-- A generation-side error message that is not an end-of-stream marker. -/
def boomMsg : String := "boom"

/-- Coordinate of the first curated entry. -/
def nyCoord : Rat × Rat := (40.7128, -74.0060)

/-- A fixed current-conditions block for a healthy weather provider. -/
def okCurrent : OpenMeteoCurrent :=
  { temperature := 20, humidity := 50, windSpeed := 3, windDir := 90, weatherCode := 0 }

/-- Weather environment that always answers successfully. -/
def okMeteo : MeteoEnv := fun _ _ => HttpReply.response 200 (Except.ok okCurrent)

/-- Weather environment that always answers with a server error status. -/
def failMeteo : MeteoEnv := fun _ _ => HttpReply.response 503 (Except.error emptyStr)

/-- Geocoding environment with no network connectivity. -/
def noNetGeo : GeoEnv := fun _ => HttpReply.transportErr emptyStr

/-- Geocoding environment that always answers with zero results. -/
def emptyResultsGeo : GeoEnv := fun _ => HttpReply.response 200 (Except.ok { results := [] })

/-- Geocoding environment that always answers with a server error status. -/
def badStatusGeo : GeoEnv := fun _ => HttpReply.response 500 (Except.error emptyStr)

/-- A candidate text segment. -/
def coatStr : String := "wear a coat"

/-- A second candidate text segment. -/
def moreStr : String := "and boots"

/-- A generation result holding one candidate with no parts. -/
def oneEmptyCandidate : GenResult := { candidates := [ { parts := [] } ] }

/-- Backend returning one candidate with no parts for every prompt. -/
def emptyCandGen : String → Except String GenResult := fun _ => Except.ok oneEmptyCandidate

/-- Backend returning one candidate with one text part for every prompt. -/
def adviceGen : String → Except String GenResult :=
  fun _ => Except.ok { candidates := [ { parts := [GenPart.text coatStr] } ] }

/-- Backend returning zero candidates for every prompt. -/
def noCandGen : String → Except String GenResult := fun _ => Except.ok { candidates := [] }

/-- A curated-table city request. -/
def nyCity : CityData := { location := nyName }

/-- A city request that no backend resolves. -/
def nowhereCity : CityData := { location := nowhereName }

/-- Another curated-table city request. -/
def tokyoCity : CityData := { location := tokyoName }

/-- An iterator that yields two responses and then exhausts normally. -/
def okIter : StreamIter :=
  { items :=
      [ { candidates := [ { parts := [GenPart.text coatStr, GenPart.nonText] } ] },
        { candidates := [ { parts := [GenPart.text moreStr] } ] } ],
    endErr := eofMark }

/-- Streaming backend producing the normal iterator for every prompt. -/
def okStreamGen : String → StreamIter := fun _ => okIter

/-- An iterator that yields one response and then fails abnormally. -/
def errIter : StreamIter :=
  { items := [ { candidates := [ { parts := [GenPart.text coatStr] } ] } ], endErr := boomMsg }

/-- Streaming backend producing the failing iterator for every prompt. -/
def errStreamGen : String → StreamIter := fun _ => errIter

/-- Sink on which every send succeeds. -/
def allOkSend : Nat → Bool := fun _ => true

/-- Selector for non-final fragments. -/
def nonFinalB (f : AdviceFragment) : Bool := !f.isComplete

/-- Selector for final fragments. -/
def finalB (f : AdviceFragment) : Bool := f.isComplete

/-! Helper lemmas shared by the claim theorems. -/

/-- Every char list is a prefix of itself extended on the right. -/
theorem startsWithL_self_append (l r : List Char) : startsWithL (l ++ r) l = true := by
  induction l with
  | nil => cases r <;> rfl
  | cons c cs ih => simpa [startsWithL] using ih

/-- Occurrence inside a list is preserved by extending it on the left. -/
theorem hasSubL_append_left (s t pat : List Char) (h : hasSubL t pat = true) :
    hasSubL (s ++ t) pat = true := by
  induction s with
  | nil => simpa using h
  | cons c cs ih =>
    show (startsWithL (c :: (cs ++ t)) pat || hasSubL (cs ++ t) pat) = true
    simp [ih]

/-- A list occurs inside itself extended on the right. -/
theorem hasSubL_self_append (y z : List Char) : hasSubL (y ++ z) y = true := by
  cases y with
  | nil => cases z <;> rfl
  | cons c cs =>
    show (startsWithL ((c :: cs) ++ z) (c :: cs) || hasSubL (cs ++ z) (c :: cs)) = true
    rw [startsWithL_self_append]
    rfl

/-- String-level occurrence is preserved by extending on the left. -/
theorem containsSub_append_left (s t pat : String) (h : containsSub t pat = true) :
    containsSub (s ++ t) pat = true := by
  unfold containsSub at h ⊢
  rw [String.data_append]
  exact hasSubL_append_left s.data t.data pat.data h

/-- A string occurs inside itself extended on both sides. -/
theorem containsSub_sandwich (a b c : String) : containsSub (a ++ b ++ c) b = true := by
  unfold containsSub
  rw [String.data_append, String.data_append, List.append_assoc]
  exact hasSubL_append_left a.data (b.data ++ c.data) b.data (hasSubL_self_append b.data c.data)

/-- Shape of a successful weather fetch: status 200 with a decodable body
yields exactly the normalized record built by the handler. -/
theorem GetCurrentWeather_ok (m : MeteoEnv) (now : Int) (req : WeatherRequest)
    (cur : OpenMeteoCurrent)
    (henv : m req.latitude req.longitude = HttpReply.response 200 (Except.ok cur)) :
    GetCurrentWeather m now req = Except.ok
      { location := fmtFixed 2 req.latitude ++ "," ++ fmtFixed 2 req.longitude
        temperature := cur.temperature
        feelsLike := cur.temperature
        tempMin := cur.temperature
        tempMax := cur.temperature
        pressure := 1013
        humidity := cur.humidity
        windSpeed := cur.windSpeed
        windDeg := cur.windDir
        timestamp := now
        description := getWeatherDescription cur.weatherCode } := by
  unfold GetCurrentWeather
  rw [henv]
  rfl

/-- Every successful weather fetch arises from a status-200 reply with a
decodable body, and the response is the normalized record for that body. -/
theorem GetCurrentWeather_ok_inv (m : MeteoEnv) (now : Int) (req : WeatherRequest)
    (resp : WeatherResponse) (h : GetCurrentWeather m now req = Except.ok resp) :
    ∃ cur, m req.latitude req.longitude = HttpReply.response 200 (Except.ok cur) ∧
      resp = { location := fmtFixed 2 req.latitude ++ "," ++ fmtFixed 2 req.longitude
               temperature := cur.temperature
               feelsLike := cur.temperature
               tempMin := cur.temperature
               tempMax := cur.temperature
               pressure := 1013
               humidity := cur.humidity
               windSpeed := cur.windSpeed
               windDeg := cur.windDir
               timestamp := now
               description := getWeatherDescription cur.weatherCode } := by
  unfold GetCurrentWeather at h
  split at h
  · exact absurd h (by simp)
  · rename_i st body heq
    split at h
    · exact absurd h (by simp)
    · rename_i hst
      split at h
      · exact absurd h (by simp)
      · rename_i cur
        push_neg at hst
        subst hst
        simp only [Except.ok.injEq] at h
        exact ⟨cur, heq, h.symm⟩

/-! Theorems settling the claims. -/

/-- Claim C7: on a successful weather fetch, the condition description is
the lookup of the provider weather code in the fixed in-process table, and
every code absent from the table yields the sentinel label rather than an
error. -/
theorem claim_c7 (m : MeteoEnv) (now : Int) (req : WeatherRequest) (cur : OpenMeteoCurrent)
    (henv : m req.latitude req.longitude = HttpReply.response 200 (Except.ok cur)) :
    (∀ resp, GetCurrentWeather m now req = Except.ok resp →
      resp.description = getWeatherDescription cur.weatherCode)
    ∧ (∀ code : Int, descriptions.lookup code = none → getWeatherDescription code = "unknown")
    ∧ (∀ code desc, descriptions.lookup code = some desc → getWeatherDescription code = desc) := by
  refine ⟨?_, ?_, ?_⟩
  · intro resp h
    rw [GetCurrentWeather_ok m now req cur henv] at h
    simp only [Except.ok.injEq] at h
    subst h
    rfl
  · intro code h
    unfold getWeatherDescription
    rw [h]
  · intro code desc h
    unfold getWeatherDescription
    rw [h]

/-- Claim C7 witness: concrete successful fetch with a mapped code, plus
concrete looked-up and unmapped codes. -/
theorem claim_c7_witness :
    ((GetCurrentWeather okMeteo 0 ⟨35, 139⟩).map WeatherResponse.description
        = Except.ok (getWeatherDescription 0))
    ∧ getWeatherDescription 42 = "unknown"
    ∧ getWeatherDescription 95 = thunderStr := by
  have h := claim_c7 okMeteo 0 ⟨35, 139⟩ okCurrent rfl
  refine ⟨?_, h.2.1 42 (by decide), h.2.2 95 thunderStr (by decide)⟩
  cases hres : GetCurrentWeather okMeteo 0 ⟨35, 139⟩ with
  | error e =>
    have hok : exceptOk (GetCurrentWeather okMeteo 0 ⟨35, 139⟩) = true := by decide
    rw [hres] at hok
    exact absurd hok (by simp [exceptOk])
  | ok resp =>
    have hd := h.1 resp hres
    exact congrArg Except.ok (hd.trans rfl)

/-- A resolver miss of the curated table runs exactly the remote fallback. -/
theorem geocodeCity_miss (g : GeoEnv) (name : String) (h : cityCoords.lookup name = none) :
    geocodeCity g name = geocodeFallback g name := by
  unfold geocodeCity
  rw [h]

/-- A resolver hit of the curated table answers from the table with no
network event. -/
theorem geocodeCity_hit (g : GeoEnv) (name : String) (p : Rat × Rat)
    (h : cityCoords.lookup name = some p) :
    geocodeCity g name = (Except.ok p, [Ev.resolveCity name]) := by
  unfold geocodeCity
  rw [h]

/-- Computation rule: a failing resolution makes the city step fail at the
geocoding step, naming the city. -/
theorem cityOutcome_geo_err (g : GeoEnv) (m : MeteoEnv) (now : Int) (c : CityData)
    (e : GeoErr) (tr : List Ev) (h : geocodeCity g c.location = (Except.error e, tr)) :
    cityOutcome g m now c = (Except.error (GatherErr.geo c.location e), tr) := by
  unfold cityOutcome
  rw [h]

/-- Computation rule: after successful resolution, a failing fetch makes the
city step fail at the weather step, naming the city. -/
theorem cityOutcome_fetch_err (g : GeoEnv) (m : MeteoEnv) (now : Int) (c : CityData)
    (p : Rat × Rat) (tr : List Ev) (e : WeatherErr)
    (hg : geocodeCity g c.location = (Except.ok p, tr))
    (hw : GetCurrentWeather m now ⟨p.1, p.2⟩ = Except.error e) :
    cityOutcome g m now c =
      (Except.error (GatherErr.weather c.location e), tr ++ [Ev.fetchWeather p.1 p.2]) := by
  unfold cityOutcome
  rw [hg]
  simp only [hw]

/-- Computation rule: when both resolution and fetch succeed, the city step
yields the summary line of the fetched record. -/
theorem cityOutcome_fetch_ok (g : GeoEnv) (m : MeteoEnv) (now : Int) (c : CityData)
    (p : Rat × Rat) (tr : List Ev) (w : WeatherResponse)
    (hg : geocodeCity g c.location = (Except.ok p, tr))
    (hw : GetCurrentWeather m now ⟨p.1, p.2⟩ = Except.ok w) :
    cityOutcome g m now c =
      (Except.ok (weatherInfoLine w), tr ++ [Ev.fetchWeather p.1 p.2]) := by
  unfold cityOutcome
  rw [hg]
  simp only [hw]

/-- Claim C4: a city name present in the curated table resolves to the
table coordinate with no outbound geocoding call, for every environment. -/
theorem claim_c4 (g : GeoEnv) (name : String) (p : Rat × Rat)
    (h : cityCoords.lookup name = some p) :
    geocodeCity g name = (Except.ok p, [Ev.resolveCity name])
    ∧ ∀ q, Ev.geoNet q ∉ (geocodeCity g name).2 := by
  have hmain := geocodeCity_hit g name p h
  refine ⟨hmain, ?_⟩
  intro q
  rw [hmain]
  simp

/-- Claim C4 witness: with a dead network environment, the curated entry
for the first table city still resolves to its table coordinate. -/
theorem claim_c4_witness :
    geocodeCity noNetGeo nyName = (Except.ok nyCoord, [Ev.resolveCity nyName])
    ∧ Ev.geoNet nyName ∉ (geocodeCity noNetGeo nyName).2 := by
  have h := claim_c4 noNetGeo nyName nyCoord (by rfl)
  exact ⟨h.1, h.2 nyName⟩

/-- Claim C5: for a name outside the curated table, a zero-result lookup
fails as not-found with a message enumerating the curated names, while a
transport error or a non-success status fails as upstream unavailability. -/
theorem claim_c5 (g : GeoEnv) (name : String) (h : cityCoords.lookup name = none) :
    (∀ msg, g name = HttpReply.transportErr msg →
      geocodeCity g name =
        (Except.error (GeoErr.geocodingFailed msg), [Ev.resolveCity name, Ev.geoNet name]))
    ∧ (∀ st body, g name = HttpReply.response st body → st ≠ 200 →
      geocodeCity g name =
        (Except.error (GeoErr.geocodingStatus st), [Ev.resolveCity name, Ev.geoNet name]))
    ∧ (∀ geo, g name = HttpReply.response 200 (Except.ok geo) → geo.results = [] →
      geocodeCity g name =
        (Except.error (GeoErr.locationNotFound name), [Ev.resolveCity name, Ev.geoNet name]))
    ∧ (∀ nm ∈ curatedNames,
        containsSub (renderGeoErr (GeoErr.locationNotFound name)) nm = true) := by
  refine ⟨?_, ?_, ?_, ?_⟩
  · intro msg hm
    rw [geocodeCity_miss g name h]
    unfold geocodeFallback
    rw [hm]
  · intro st body hm hst
    rw [geocodeCity_miss g name h]
    unfold geocodeFallback
    rw [hm]
    simp [hst]
  · intro geo hm hres
    rw [geocodeCity_miss g name h]
    unfold geocodeFallback
    rw [hm]
    simp [hres]
  · intro nm hnm
    have hshape : renderGeoErr (GeoErr.locationNotFound name) =
        ( "location not found: " ++ name) ++ curatedHint := rfl
    rw [hshape]
    fin_cases hnm <;> exact containsSub_append_left _ _ _ (by decide)

/-- Claim C5 witness: the three failure modes at a concrete absent name. -/
theorem claim_c5_witness :
    geocodeCity emptyResultsGeo nowhereName =
      (Except.error (GeoErr.locationNotFound nowhereName),
        [Ev.resolveCity nowhereName, Ev.geoNet nowhereName])
    ∧ geocodeCity noNetGeo nowhereName =
      (Except.error (GeoErr.geocodingFailed emptyStr),
        [Ev.resolveCity nowhereName, Ev.geoNet nowhereName])
    ∧ geocodeCity badStatusGeo nowhereName =
      (Except.error (GeoErr.geocodingStatus 500),
        [Ev.resolveCity nowhereName, Ev.geoNet nowhereName])
    ∧ containsSub (renderGeoErr (GeoErr.locationNotFound nowhereName)) tokyoName = true := by
  refine ⟨?_, ?_, ?_, ?_⟩
  · exact (claim_c5 emptyResultsGeo nowhereName (by decide)).2.2.1 ⟨[]⟩ rfl rfl
  · exact (claim_c5 noNetGeo nowhereName (by decide)).1 emptyStr rfl
  · exact (claim_c5 badStatusGeo nowhereName (by decide)).2.1 500 (Except.error emptyStr) rfl
      (by norm_num)
  · exact (claim_c5 emptyResultsGeo nowhereName (by decide)).2.2.2 tokyoName (by decide)

/-- Claim C9: the location label of every successful weather fetch is the
two-decimal coordinate pair, the summary line embeds that label, and the
line of a city step is determined by the resolved coordinate alone, not by
the requested name. -/
theorem claim_c9 (m : MeteoEnv) (now : Int) (req : WeatherRequest) (resp : WeatherResponse)
    (h : GetCurrentWeather m now req = Except.ok resp) :
    resp.location = fmtFixed 2 req.latitude ++ "," ++ fmtFixed 2 req.longitude
    ∧ weatherInfoLine resp =
        "City: " ++ resp.location ++ ", Temp: " ++ fmtFixed 1 resp.temperature ++
          "°C, Condition: " ++ resp.description ++ ", Humidity: " ++ toString resp.humidity ++
          "%, Wind: " ++ fmtFixed 1 resp.windSpeed ++ " m/s"
    ∧ (∀ (g : GeoEnv) (c1 c2 : CityData) (p : Rat × Rat) (tr1 tr2 : List Ev) (s : String),
        geocodeCity g c1.location = (Except.ok p, tr1) →
        geocodeCity g c2.location = (Except.ok p, tr2) →
        (cityOutcome g m now c1).1 = Except.ok s →
        (cityOutcome g m now c2).1 = Except.ok s) := by
  obtain ⟨cur, henv, hresp⟩ := GetCurrentWeather_ok_inv m now req resp h
  refine ⟨by rw [hresp], rfl, ?_⟩
  intro g c1 c2 p tr1 tr2 s h1 h2 hline
  cases hw : GetCurrentWeather m now ⟨p.1, p.2⟩ with
  | error e =>
    rw [cityOutcome_fetch_err g m now c1 p tr1 e h1 hw] at hline
    exact absurd hline (by simp)
  | ok w =>
    rw [cityOutcome_fetch_ok g m now c1 p tr1 w h1 hw] at hline
    rw [cityOutcome_fetch_ok g m now c2 p tr2 w h2 hw]
    exact hline

/-- Claim C9 witness: a concrete successful fetch whose location label is
the two-decimal rendering of the queried coordinate. -/
theorem claim_c9_witness :
    (GetCurrentWeather okMeteo 0 ⟨35, 139⟩).map WeatherResponse.location
      = Except.ok (fmtFixed 2 (35 : Rat) ++ "," ++ fmtFixed 2 (139 : Rat)) := by
  cases hres : GetCurrentWeather okMeteo 0 ⟨35, 139⟩ with
  | error e =>
    have hok : exceptOk (GetCurrentWeather okMeteo 0 ⟨35, 139⟩) = true := by decide
    rw [hres] at hok
    exact absurd hok (by simp [exceptOk])
  | ok resp =>
    exact congrArg Except.ok (claim_c9 okMeteo 0 ⟨35, 139⟩ resp hres).1

/-- Claim C10: every successful weather response reports feels-like and the
min and max temperatures equal to the current temperature, and the constant
pressure value, whatever the coordinate and the provider data. -/
theorem claim_c10 (m : MeteoEnv) (now : Int) (req : WeatherRequest) (resp : WeatherResponse)
    (h : GetCurrentWeather m now req = Except.ok resp) :
    resp.feelsLike = resp.temperature ∧ resp.tempMin = resp.temperature ∧
      resp.tempMax = resp.temperature ∧ resp.pressure = 1013 := by
  obtain ⟨cur, henv, hresp⟩ := GetCurrentWeather_ok_inv m now req resp h
  subst hresp
  exact ⟨rfl, rfl, rfl, rfl⟩

/-- Claim C10 witness: the invariant checked on a concrete fetch. -/
theorem claim_c10_witness :
    (GetCurrentWeather okMeteo 0 ⟨35, 139⟩).map WeatherResponse.pressure = Except.ok 1013 := by
  cases hres : GetCurrentWeather okMeteo 0 ⟨35, 139⟩ with
  | error e =>
    have hok : exceptOk (GetCurrentWeather okMeteo 0 ⟨35, 139⟩) = true := by decide
    rw [hres] at hok
    exact absurd hok (by simp [exceptOk])
  | ok resp =>
    exact congrArg Except.ok (claim_c10 okMeteo 0 ⟨35, 139⟩ resp hres).2.2.2

/-- Claim C6 counterexample: the backend returns one candidate carrying no
text parts, GetAdvice succeeds, and the advice is the empty string — the
returned advice is not non-empty even though at least one candidate came
back. -/
theorem claim_c6_counterexample :
    (GetAdvice noNetGeo okMeteo 0 emptyCandGen [nyCity]).1 = Except.ok emptyStr
    ∧ oneEmptyCandidate.candidates.length = 1 := by
  exact ⟨rfl, rfl⟩

/-- Claim C6 amended: when gathering succeeds, GetAdvice fails with the
no-response error if the backend returns zero candidates, and otherwise
returns the concatenated text parts of the first candidate — a string that
is empty when that candidate carries no text. -/
theorem claim_c6_amended (g : GeoEnv) (m : MeteoEnv) (now : Int)
    (gen : String → Except String GenResult) (cities : List CityData)
    (lines : List String) (tr : List Ev) (resp : GenResult)
    (hga : gatherWeather g m now cities = (Except.ok lines, tr))
    (hresp : gen (buildPrompt lines) = Except.ok resp) :
    (resp.candidates = [] →
      (GetAdvice g m now gen cities).1 =
        Except.error (AdvisorErr.generationFailed GenErr.noResponse))
    ∧ (resp.candidates ≠ [] →
      (GetAdvice g m now gen cities).1 =
        Except.ok (String.join (firstCandTexts resp.candidates))) := by
  constructor
  · intro hc
    unfold GetAdvice
    simp only [hga]
    unfold generateAdvice
    simp only [hresp, hc]
  · intro hc
    cases hcand : resp.candidates with
    | nil => exact absurd hcand hc
    | cons c cs =>
      unfold GetAdvice
      simp only [hga]
      unfold generateAdvice
      simp only [hresp, hcand, firstCandTexts]

/-- Claim C6 witness for the amended statement: zero candidates yield the
no-response failure; one candidate with one text part yields its text. -/
theorem claim_c6_witness :
    (GetAdvice noNetGeo okMeteo 0 noCandGen [nyCity]).1 =
      Except.error (AdvisorErr.generationFailed GenErr.noResponse)
    ∧ (GetAdvice noNetGeo okMeteo 0 adviceGen [nyCity]).1 = Except.ok coatStr := by
  constructor
  · exact (claim_c6_amended noNetGeo okMeteo 0 noCandGen [nyCity]
      (gatherLines noNetGeo okMeteo 0 [nyCity])
      (gatherWeather noNetGeo okMeteo 0 [nyCity]).2 ⟨[]⟩ rfl rfl).1 rfl
  · exact ((claim_c6_amended noNetGeo okMeteo 0 adviceGen [nyCity]
      (gatherLines noNetGeo okMeteo 0 [nyCity])
      (gatherWeather noNetGeo okMeteo 0 [nyCity]).2
      ⟨[⟨[GenPart.text coatStr]⟩]⟩ rfl rfl).2 (by simp)).trans rfl

/-- When every send succeeds, the send loop delivers one non-final fragment
per chunk, in order. -/
theorem sendChunks_all_ok (sendOk : Nat → Bool) (ts : List String) :
    ∀ i, (sendChunks sendOk i ts).2.1 = true →
      sendChunks sendOk i ts = (ts.map mkChunkFrag, true, i + ts.length) := by
  induction ts with
  | nil =>
    intro i _
    simp [sendChunks]
  | cons t ts ih =>
    intro i h
    unfold sendChunks at h ⊢
    by_cases hs : sendOk i = true
    · rw [if_pos hs] at h ⊢
      have h2 : (sendChunks sendOk (i + 1) ts).2.1 = true := h
      rw [ih (i + 1) h2]
      simp
      omega
    · rw [if_neg hs] at h
      exact absurd h (by simp)

/-- The send loop never delivers a final fragment. -/
theorem sendChunks_frags_nonfinal (sendOk : Nat → Bool) (ts : List String) :
    ∀ i f, f ∈ (sendChunks sendOk i ts).1 → f.isComplete = false := by
  induction ts with
  | nil =>
    intro i f hf
    simp [sendChunks] at hf
  | cons t ts ih =>
    intro i f hf
    unfold sendChunks at hf
    by_cases hs : sendOk i = true
    · rw [if_pos hs] at hf
      rcases List.mem_cons.mp hf with hh | hh
      · rw [hh]; rfl
      · exact ih (i + 1) f hh
    · rw [if_neg hs] at hf
      simp at hf

/-- With an always-succeeding sink, the send loop reports success. -/
theorem sendChunks_all_sends (sendOk : Nat → Bool) (hsend : ∀ n, sendOk n = true)
    (ts : List String) : ∀ i, (sendChunks sendOk i ts).2.1 = true := by
  induction ts with
  | nil => intro i; rfl
  | cons t ts ih =>
    intro i
    unfold sendChunks
    rw [if_pos (hsend i)]
    exact ih (i + 1)

/-- A successful streaming generation delivers exactly the non-final chunk
fragments in generation order followed by the terminal fragment. -/
theorem streamGen_success_shape (streamGen : String → StreamIter) (sendOk : Nat → Bool)
    (weatherData : List String) (tr2 : List Ev) (frags : List AdviceFragment)
    (h : streamAdviceGeneration streamGen sendOk weatherData = (Except.ok (), tr2, frags)) :
    frags = (genTexts (streamGen (buildPrompt weatherData))).map mkChunkFrag
      ++ [finalFragment] := by
  unfold streamAdviceGeneration at h
  by_cases h1 : (sendChunks sendOk 0 (genTexts (streamGen (buildPrompt weatherData)))).2.1 = true
  · rw [if_pos h1] at h
    by_cases h2 : isEndOfStream (streamGen (buildPrompt weatherData)).endErr = true
    · rw [if_pos h2] at h
      by_cases h3 :
          sendOk (sendChunks sendOk 0 (genTexts (streamGen (buildPrompt weatherData)))).2.2 = true
      · rw [if_pos h3] at h
        simp only [Prod.mk.injEq] at h
        rw [← h.2.2, sendChunks_all_ok sendOk _ 0 h1]
      · rw [if_neg h3] at h
        simp only [Prod.mk.injEq] at h
        exact absurd h.1 (by simp)
    · rw [if_neg h2] at h
      simp only [Prod.mk.injEq] at h
      exact absurd h.1 (by simp)
  · rw [if_neg h1] at h
    simp only [Prod.mk.injEq] at h
    exact absurd h.1 (by simp)

/-- Mapped chunk fragments are all non-final. -/
theorem filter_nonFinal_map_chunks (ts : List String) :
    (ts.map mkChunkFrag).filter nonFinalB = ts.map mkChunkFrag := by
  induction ts with
  | nil => rfl
  | cons t ts ih => simp [List.filter, nonFinalB, mkChunkFrag, ih]

/-- Mapped chunk fragments contain no final fragment. -/
theorem filter_final_map_chunks (ts : List String) :
    (ts.map mkChunkFrag).filter finalB = [] := by
  induction ts with
  | nil => rfl
  | cons t ts ih => simp [List.filter, finalB, mkChunkFrag, ih]

/-- The chunk of a mapped chunk fragment is the original text. -/
theorem map_chunk_map_chunks (ts : List String) :
    (ts.map mkChunkFrag).map AdviceFragment.chunk = ts := by
  induction ts with
  | nil => rfl
  | cons t ts ih => simp [mkChunkFrag, ih]

/-- Computation rule: a failing gather makes the streaming handler fail
before any fragment is produced. -/
theorem StreamAdvice_gather_err (g : GeoEnv) (m : MeteoEnv) (now : Int)
    (streamGen : String → StreamIter) (sendOk : Nat → Bool) (cities : List CityData)
    (e : GatherErr) (tr : List Ev)
    (h : gatherWeather g m now cities = (Except.error e, tr)) :
    StreamAdvice g m now streamGen sendOk cities =
      (Except.error (AdvisorErr.gatherFailed e), tr, []) := by
  unfold StreamAdvice
  rw [h]

/-- Computation rule: after a successful gather the streaming handler wraps
the streaming generation outcome and passes its fragments through. -/
theorem StreamAdvice_gather_ok (g : GeoEnv) (m : MeteoEnv) (now : Int)
    (streamGen : String → StreamIter) (sendOk : Nat → Bool) (cities : List CityData)
    (lines : List String) (tr : List Ev) (r : Except StreamErr Unit) (tr2 : List Ev)
    (frags : List AdviceFragment)
    (h : gatherWeather g m now cities = (Except.ok lines, tr))
    (h2 : streamAdviceGeneration streamGen sendOk lines = (r, tr2, frags)) :
    StreamAdvice g m now streamGen sendOk cities =
      ((match r with
        | Except.error e => Except.error (AdvisorErr.generationFailed e)
        | Except.ok _ => Except.ok ()), tr ++ tr2, frags) := by
  unfold StreamAdvice
  simp only [h, h2]
  cases r <;> rfl

/-- Computation rule: a failing gather makes the single-shot handler fail
with the gather error. -/
theorem GetAdvice_gather_err (g : GeoEnv) (m : MeteoEnv) (now : Int)
    (gen : String → Except String GenResult) (cities : List CityData)
    (e : GatherErr) (tr : List Ev)
    (h : gatherWeather g m now cities = (Except.error e, tr)) :
    GetAdvice g m now gen cities = (Except.error (AdvisorErr.gatherFailed e), tr) := by
  unfold GetAdvice
  rw [h]

/-- Computation rule: after a successful gather the single-shot handler
wraps the generation outcome. -/
theorem GetAdvice_gather_ok (g : GeoEnv) (m : MeteoEnv) (now : Int)
    (gen : String → Except String GenResult) (cities : List CityData)
    (lines : List String) (tr : List Ev) (r : Except GenErr String) (tr2 : List Ev)
    (h : gatherWeather g m now cities = (Except.ok lines, tr))
    (h2 : generateAdvice gen lines = (r, tr2)) :
    GetAdvice g m now gen cities =
      ((match r with
        | Except.error e => Except.error (AdvisorErr.generationFailed e)
        | Except.ok a => Except.ok a), tr ++ tr2) := by
  unfold GetAdvice
  simp only [h, h2]
  cases r <;> rfl

/-- Claim C2: a successful streaming call delivers zero or more non-final
fragments carrying the generated text in order, then exactly one terminal
fragment with empty text, and the concatenated non-final text is the
complete advisory message. -/
theorem claim_c2 (g : GeoEnv) (m : MeteoEnv) (now : Int)
    (streamGen : String → StreamIter) (sendOk : Nat → Bool) (cities : List CityData)
    (h : (StreamAdvice g m now streamGen sendOk cities).1 = Except.ok ()) :
    (StreamAdvice g m now streamGen sendOk cities).2.2 =
      (genTexts (streamGen (buildPrompt (gatherLines g m now cities)))).map mkChunkFrag
        ++ [finalFragment]
    ∧ ((StreamAdvice g m now streamGen sendOk cities).2.2.filter nonFinalB).map
        AdviceFragment.chunk
        = genTexts (streamGen (buildPrompt (gatherLines g m now cities)))
    ∧ String.join ((((StreamAdvice g m now streamGen sendOk cities).2.2.filter
          nonFinalB).map AdviceFragment.chunk))
        = fullText (streamGen (buildPrompt (gatherLines g m now cities)))
    ∧ (StreamAdvice g m now streamGen sendOk cities).2.2.filter finalB = [finalFragment] := by
  cases hga : gatherWeather g m now cities with
  | mk res tr =>
    cases res with
    | error e =>
      rw [StreamAdvice_gather_err g m now streamGen sendOk cities e tr hga] at h
      exact absurd h (by simp)
    | ok lines =>
      have hlines : gatherLines g m now cities = lines := by
        unfold gatherLines
        rw [hga]
      cases hsg : streamAdviceGeneration streamGen sendOk lines with
      | mk r rest =>
        cases rest with
        | mk tr2 frags =>
          have hshape := StreamAdvice_gather_ok g m now streamGen sendOk cities lines tr
            r tr2 frags hga hsg
          rw [hshape] at h
          cases r with
          | error e => exact absurd h (by simp)
          | ok u =>
            cases u
            have hclean : StreamAdvice g m now streamGen sendOk cities =
                (Except.ok (), tr ++ tr2, frags) := hshape
            have hfr := streamGen_success_shape streamGen sendOk lines tr2 frags hsg
            rw [hclean, hlines, hfr]
            have hnil : List.filter nonFinalB [finalFragment] = [] := rfl
            refine ⟨rfl, ?_, ?_, ?_⟩
            · rw [List.filter_append, filter_nonFinal_map_chunks, hnil, List.append_nil,
                map_chunk_map_chunks]
            · rw [List.filter_append, filter_nonFinal_map_chunks, hnil, List.append_nil,
                map_chunk_map_chunks]
              rfl
            · rw [List.filter_append, filter_final_map_chunks]
              rfl

/-- Claim C2 witness: a concrete successful streaming call delivering two
text chunks and the terminal fragment. -/
theorem claim_c2_witness :
    (StreamAdvice noNetGeo okMeteo 0 okStreamGen allOkSend [nyCity]).2.2 =
      [mkChunkFrag coatStr, mkChunkFrag moreStr, finalFragment]
    ∧ String.join ((((StreamAdvice noNetGeo okMeteo 0 okStreamGen allOkSend
          [nyCity]).2.2.filter nonFinalB).map AdviceFragment.chunk))
        = coatStr ++ moreStr := by
  have h := claim_c2 noNetGeo okMeteo 0 okStreamGen allOkSend [nyCity] (by rfl)
  refine ⟨h.1.trans (by rfl), h.2.2.1.trans (by rfl)⟩

/-- Claim C3: when the iterator terminates with an error that is not the
end-of-stream indicator and the sink never fails, the streaming generation
fails with the streaming error and no delivered fragment is final. -/
theorem claim_c3 (streamGen : String → StreamIter) (sendOk : Nat → Bool)
    (weatherData : List String)
    (hend : isEndOfStream (streamGen (buildPrompt weatherData)).endErr = false)
    (hsend : ∀ n, sendOk n = true) :
    (streamAdviceGeneration streamGen sendOk weatherData).1 =
      Except.error (StreamErr.streamingFailed (streamGen (buildPrompt weatherData)).endErr)
    ∧ ∀ f ∈ (streamAdviceGeneration streamGen sendOk weatherData).2.2,
        f.isComplete = false := by
  have hall := sendChunks_all_sends sendOk hsend
    (genTexts (streamGen (buildPrompt weatherData))) 0
  constructor
  · unfold streamAdviceGeneration
    rw [if_pos hall, if_neg (by simp [hend])]
  · intro f hf
    unfold streamAdviceGeneration at hf
    rw [if_pos hall, if_neg (by simp [hend])] at hf
    exact sendChunks_frags_nonfinal sendOk _ 0 f hf

/-- Claim C3 witness: a concrete abnormal iterator error after one chunk
fails the call with the streaming error, and the delivered fragment is not
final. -/
theorem claim_c3_witness :
    (streamAdviceGeneration errStreamGen allOkSend []).1 =
      Except.error (StreamErr.streamingFailed boomMsg)
    ∧ (mkChunkFrag coatStr).isComplete = false := by
  have h := claim_c3 errStreamGen allOkSend [] (by decide) (fun n => rfl)
  exact ⟨h.1, h.2 (mkChunkFrag coatStr) (by decide)⟩

/-- The single-shot generation step records exactly one generation call. -/
theorem generateAdvice_trace (gen : String → Except String GenResult)
    (weatherData : List String) :
    (generateAdvice gen weatherData).2 = [Ev.genCall (buildPrompt weatherData)] := by
  unfold generateAdvice
  split
  · rfl
  · split <;> rfl

/-- Computation rule: a failing first city fails the whole gather with its
error and trace. -/
theorem gatherWeather_cons_err (g : GeoEnv) (m : MeteoEnv) (now : Int) (c : CityData)
    (cs : List CityData) (e : GatherErr) (tr : List Ev)
    (h : cityOutcome g m now c = (Except.error e, tr)) :
    gatherWeather g m now (c :: cs) = (Except.error e, tr) := by
  unfold gatherWeather
  rw [h]

/-- Computation rule: a successful first city followed by a failing rest
fails the gather with the tail error behind the head trace. -/
theorem gatherWeather_cons_ok_err (g : GeoEnv) (m : MeteoEnv) (now : Int) (c : CityData)
    (cs : List CityData) (line : String) (tr : List Ev) (e : GatherErr) (tr2 : List Ev)
    (h : cityOutcome g m now c = (Except.ok line, tr))
    (h2 : gatherWeather g m now cs = (Except.error e, tr2)) :
    gatherWeather g m now (c :: cs) = (Except.error e, tr ++ tr2) := by
  unfold gatherWeather
  simp only [h, h2]

/-- Computation rule: a successful first city followed by a successful rest
yields the line consed onto the tail lines, traces appended. -/
theorem gatherWeather_cons_ok_ok (g : GeoEnv) (m : MeteoEnv) (now : Int) (c : CityData)
    (cs : List CityData) (line : String) (tr : List Ev) (lines : List String) (tr2 : List Ev)
    (h : cityOutcome g m now c = (Except.ok line, tr))
    (h2 : gatherWeather g m now cs = (Except.ok lines, tr2)) :
    gatherWeather g m now (c :: cs) = (Except.ok (line :: lines), tr ++ tr2) := by
  unfold gatherWeather
  simp only [h, h2]

/-- When every city step succeeds, the gather returns one line per city in
input order and the per-city traces concatenated in input order. -/
theorem gather_all_ok (g : GeoEnv) (m : MeteoEnv) (now : Int) : ∀ (cities : List CityData),
    (∀ c ∈ cities, exceptOk (cityOutcome g m now c).1 = true) →
    gatherWeather g m now cities =
      (Except.ok (cities.map (cityLineD g m now)), flatMapL (cityTraceD g m now) cities) := by
  intro cities
  induction cities with
  | nil => intro _; rfl
  | cons c cs ih =>
    intro hall
    have hc := hall c (by simp)
    cases hres : cityOutcome g m now c with
    | mk r tr =>
      cases r with
      | error e =>
        rw [hres] at hc
        exact absurd hc (by simp [exceptOk])
      | ok line =>
        have hrec := ih (fun d hd => hall d (by simp [hd]))
        rw [gatherWeather_cons_ok_ok g m now c cs line tr _ _ hres hrec]
        have h1 : cityLineD g m now c = line := by
          unfold cityLineD
          rw [hres]
        have h2 : cityTraceD g m now c = tr := by
          unfold cityTraceD
          rw [hres]
        rw [List.map_cons, h1, flatMapL, h2]

/-- The remote fallback records the resolution and the network call. -/
theorem geocodeFallback_trace (g : GeoEnv) (loc : String) :
    (geocodeFallback g loc).2 = [Ev.resolveCity loc, Ev.geoNet loc] := by
  unfold geocodeFallback
  split
  · rfl
  · split
    · rfl
    · split
      · rfl
      · split <;> rfl

/-- The resolver trace is the lone resolution event on a table hit and the
resolution plus network events otherwise. -/
theorem geocodeCity_trace (g : GeoEnv) (loc : String) :
    (geocodeCity g loc).2 = [Ev.resolveCity loc] ∨
      (geocodeCity g loc).2 = [Ev.resolveCity loc, Ev.geoNet loc] := by
  unfold geocodeCity
  cases hl : cityCoords.lookup loc with
  | some p => left; rfl
  | none => right; exact geocodeFallback_trace g loc

/-- Every city gather step starts by resolving that city. -/
theorem cityTraceD_head (g : GeoEnv) (m : MeteoEnv) (now : Int) (c : CityData) :
    (cityTraceD g m now c).head? = some (Ev.resolveCity c.location) := by
  unfold cityTraceD
  cases hg : geocodeCity g c.location with
  | mk res tr =>
    have htr := geocodeCity_trace g c.location
    rw [hg] at htr
    have h1 : tr = [Ev.resolveCity c.location] ∨
        tr = [Ev.resolveCity c.location, Ev.geoNet c.location] := htr
    cases res with
    | error e =>
      rw [cityOutcome_geo_err g m now c e tr hg]
      rcases h1 with h1 | h1 <;> rw [h1] <;> rfl
    | ok p =>
      cases hw : GetCurrentWeather m now ⟨p.1, p.2⟩ with
      | error e =>
        rw [cityOutcome_fetch_err g m now c p tr e hg hw]
        rcases h1 with h1 | h1 <;> rw [h1] <;> rfl
      | ok w =>
        rw [cityOutcome_fetch_ok g m now c p tr w hg hw]
        rcases h1 with h1 | h1 <;> rw [h1] <;> rfl

/-- The resolver never records a generation call. -/
theorem geocodeCity_no_genCall (g : GeoEnv) (loc : String) (p : String) :
    Ev.genCall p ∉ (geocodeCity g loc).2 := by
  rcases geocodeCity_trace g loc with h | h <;> rw [h] <;> simp

/-- A city gather step never records a generation call. -/
theorem cityOutcome_no_genCall (g : GeoEnv) (m : MeteoEnv) (now : Int) (c : CityData)
    (p : String) : Ev.genCall p ∉ (cityOutcome g m now c).2 := by
  cases hg : geocodeCity g c.location with
  | mk res tr =>
    have hng := geocodeCity_no_genCall g c.location p
    rw [hg] at hng
    have hng2 : Ev.genCall p ∉ tr := hng
    cases res with
    | error e =>
      rw [cityOutcome_geo_err g m now c e tr hg]
      exact hng2
    | ok q =>
      cases hw : GetCurrentWeather m now ⟨q.1, q.2⟩ with
      | error e =>
        rw [cityOutcome_fetch_err g m now c q tr e hg hw]
        show Ev.genCall p ∉ tr ++ [Ev.fetchWeather q.1 q.2]
        intro hmem
        rcases List.mem_append.mp hmem with hmem2 | hmem2
        · exact hng2 hmem2
        · simp at hmem2
      | ok w =>
        rw [cityOutcome_fetch_ok g m now c q tr w hg hw]
        show Ev.genCall p ∉ tr ++ [Ev.fetchWeather q.1 q.2]
        intro hmem
        rcases List.mem_append.mp hmem with hmem2 | hmem2
        · exact hng2 hmem2
        · simp at hmem2

/-- The gather loop never records a generation call. -/
theorem gather_no_genCall (g : GeoEnv) (m : MeteoEnv) (now : Int) (p : String) :
    ∀ (cities : List CityData), Ev.genCall p ∉ (gatherWeather g m now cities).2 := by
  intro cities
  induction cities with
  | nil => simp [gatherWeather]
  | cons c cs ih =>
    cases hres : cityOutcome g m now c with
    | mk r tr =>
      have hng := cityOutcome_no_genCall g m now c p
      rw [hres] at hng
      cases r with
      | error e =>
        rw [gatherWeather_cons_err g m now c cs e tr hres]
        exact hng
      | ok line =>
        cases hrest : gatherWeather g m now cs with
        | mk r2 tr2 =>
          have hng2 := ih
          rw [hrest] at hng2
          cases r2 with
          | error e2 =>
            rw [gatherWeather_cons_ok_err g m now c cs line tr e2 tr2 hres hrest]
            intro hmem
            rcases List.mem_append.mp hmem with hmem2 | hmem2
            · exact hng hmem2
            · exact hng2 hmem2
          | ok lines =>
            rw [gatherWeather_cons_ok_ok g m now c cs line tr lines tr2 hres hrest]
            intro hmem
            rcases List.mem_append.mp hmem with hmem2 | hmem2
            · exact hng hmem2
            · exact hng2 hmem2

/-- Associativity of string concatenation. -/
theorem strAppend_assoc (a b c : String) : (a ++ b) ++ c = a ++ (b ++ c) := by
  apply String.ext
  simp [String.data_append, List.append_assoc]

/-- A failing city step names that city in its error, and the rendered
message contains the city name. -/
theorem cityOutcome_err_name (g : GeoEnv) (m : MeteoEnv) (now : Int) (c : CityData)
    (e : GatherErr) (tr : List Ev) (h : cityOutcome g m now c = (Except.error e, tr)) :
    errCity e = c.location ∧ containsSub (renderGatherErr e) c.location = true := by
  unfold cityOutcome at h
  cases hg : geocodeCity g c.location with
  | mk r trg =>
    rw [hg] at h
    cases r with
    | error e2 =>
      simp only [Prod.mk.injEq, Except.error.injEq] at h
      rw [← h.1]
      refine ⟨rfl, ?_⟩
      have hshape : renderGatherErr (GatherErr.geo c.location e2) =
          ( "geocoding failed for " ++ c.location) ++ (": " ++ renderGeoErr e2) :=
        strAppend_assoc _ _ _
      rw [hshape]
      exact containsSub_sandwich _ _ _
    | ok p =>
      cases hw : GetCurrentWeather m now ⟨p.1, p.2⟩ with
      | error e3 =>
        simp only [hw, Prod.mk.injEq, Except.error.injEq] at h
        rw [← h.1]
        refine ⟨rfl, ?_⟩
        have hshape : renderGatherErr (GatherErr.weather c.location e3) =
            ( "weather request failed for " ++ c.location) ++ (": " ++ renderWeatherErr e3) :=
          strAppend_assoc _ _ _
        rw [hshape]
        exact containsSub_sandwich _ _ _
      | ok w =>
        simp only [hw, Prod.mk.injEq] at h
        exact absurd h.1 (by simp)

/-- A failure at a city in the middle of the list fails the whole gather
with that city error, the trace stopping at that city. -/
theorem gather_fail_mid (g : GeoEnv) (m : MeteoEnv) (now : Int) :
    ∀ (pre : List CityData) (c : CityData) (post : List CityData) (infos : List String)
      (trp : List Ev) (e : GatherErr) (tre : List Ev),
      gatherWeather g m now pre = (Except.ok infos, trp) →
      cityOutcome g m now c = (Except.error e, tre) →
      gatherWeather g m now (pre ++ c :: post) = (Except.error e, trp ++ tre) := by
  intro pre
  induction pre with
  | nil =>
    intro c post infos trp e tre hpre hc
    have h0 : gatherWeather g m now ([] : List CityData) = (Except.ok [], []) := rfl
    rw [h0] at hpre
    simp only [Prod.mk.injEq] at hpre
    rw [← hpre.2]
    rw [List.nil_append]
    rw [gatherWeather_cons_err g m now c post e tre hc]
    rfl
  | cons p ps ih =>
    intro c post infos trp e tre hpre hc
    cases hres : cityOutcome g m now p with
    | mk r tr =>
      cases r with
      | error e2 =>
        rw [gatherWeather_cons_err g m now p ps e2 tr hres] at hpre
        exact absurd hpre (by simp)
      | ok line =>
        cases hrest : gatherWeather g m now ps with
        | mk r2 tr2 =>
          cases r2 with
          | error e2 =>
            rw [gatherWeather_cons_ok_err g m now p ps line tr e2 tr2 hres hrest] at hpre
            exact absurd hpre (by simp)
          | ok lines =>
            rw [gatherWeather_cons_ok_ok g m now p ps line tr lines tr2 hres hrest] at hpre
            simp only [Prod.mk.injEq, Except.ok.injEq] at hpre
            have hmid := ih c post lines tr2 e tre hrest hc
            rw [List.cons_append]
            rw [gatherWeather_cons_ok_err g m now p (ps ++ c :: post) line tr e (tr2 ++ tre)
              hres hmid]
            rw [← hpre.2, List.append_assoc]

/-- Claim C8: when every city step succeeds, cities are resolved and
fetched strictly one at a time in request order — the trace is the
concatenation of the per-city traces in request order, each starting with
that city resolution — and the prompt passed to generation carries exactly
one summary line per city in that order. -/
theorem claim_c8 (g : GeoEnv) (m : MeteoEnv) (now : Int)
    (gen : String → Except String GenResult) (cities : List CityData)
    (hok : ∀ c ∈ cities, exceptOk (cityOutcome g m now c).1 = true) :
    gatherWeather g m now cities =
      (Except.ok (cities.map (cityLineD g m now)), flatMapL (cityTraceD g m now) cities)
    ∧ (GetAdvice g m now gen cities).2 =
        flatMapL (cityTraceD g m now) cities ++
          [Ev.genCall (buildPrompt (cities.map (cityLineD g m now)))]
    ∧ ∀ c ∈ cities, (cityTraceD g m now c).head? = some (Ev.resolveCity c.location) := by
  have hga := gather_all_ok g m now cities hok
  refine ⟨hga, ?_, fun c _ => cityTraceD_head g m now c⟩
  cases hgen : generateAdvice gen (cities.map (cityLineD g m now)) with
  | mk r tr2 =>
    have h2 := GetAdvice_gather_ok g m now gen cities _ _ r tr2 hga hgen
    have hclean : (GetAdvice g m now gen cities).2 =
        flatMapL (cityTraceD g m now) cities ++ tr2 := by
      rw [h2]
    have htr2 : tr2 = [Ev.genCall (buildPrompt (cities.map (cityLineD g m now)))] := by
      have hh := generateAdvice_trace gen (cities.map (cityLineD g m now))
      rw [hgen] at hh
      exact hh
    rw [hclean, htr2]

/-- Claim C8 witness: a two-city request gathered in order, the first trace
starting with the resolution of the first city. -/
theorem claim_c8_witness :
    gatherWeather noNetGeo okMeteo 0 [nyCity, tokyoCity] =
      (Except.ok ([nyCity, tokyoCity].map (cityLineD noNetGeo okMeteo 0)),
        flatMapL (cityTraceD noNetGeo okMeteo 0) [nyCity, tokyoCity])
    ∧ (cityTraceD noNetGeo okMeteo 0 nyCity).head? = some (Ev.resolveCity nyName) := by
  have h := claim_c8 noNetGeo okMeteo 0 adviceGen [nyCity, tokyoCity] (by decide)
  exact ⟨h.1, h.2.2 nyCity (by simp)⟩

/-- Claim C1: when every city before some failing city gathers cleanly and
that city fails to resolve or fetch, both handlers fail with an error
naming that city and its step, the trace stops at the failing city — no
later city is resolved or fetched — no generation call is recorded, and
the streaming handler delivers no fragments. -/
theorem claim_c1 (g : GeoEnv) (m : MeteoEnv) (now : Int)
    (gen : String → Except String GenResult) (streamGen : String → StreamIter)
    (sendOk : Nat → Bool) (pre : List CityData) (c : CityData) (post : List CityData)
    (infos : List String) (trp : List Ev) (e : GatherErr) (tre : List Ev)
    (hpre : gatherWeather g m now pre = (Except.ok infos, trp))
    (hc : cityOutcome g m now c = (Except.error e, tre)) :
    GetAdvice g m now gen (pre ++ c :: post) =
      (Except.error (AdvisorErr.gatherFailed e), trp ++ tre)
    ∧ StreamAdvice g m now streamGen sendOk (pre ++ c :: post) =
        (Except.error (AdvisorErr.gatherFailed e), trp ++ tre, [])
    ∧ errCity e = c.location
    ∧ containsSub (renderGatherErr e) c.location = true
    ∧ (∀ p, Ev.genCall p ∉ trp ++ tre) := by
  have hgm := gather_fail_mid g m now pre c post infos trp e tre hpre hc
  have hname := cityOutcome_err_name g m now c e tre hc
  refine ⟨GetAdvice_gather_err g m now gen _ e _ hgm,
    StreamAdvice_gather_err g m now streamGen sendOk _ e _ hgm, hname.1, hname.2, ?_⟩
  intro p hp
  rcases List.mem_append.mp hp with h1 | h1
  · have htrp : trp = (gatherWeather g m now pre).2 := by rw [hpre]
    rw [htrp] at h1
    exact gather_no_genCall g m now p pre h1
  · have htre : tre = (cityOutcome g m now c).2 := by rw [hc]
    rw [htre] at h1
    exact cityOutcome_no_genCall g m now c p h1

/-- Claim C1 witness: second of three cities fails resolution with zero
results; both handlers fail naming it, the third city is never touched,
and no fragment is delivered. -/
theorem claim_c1_witness :
    GetAdvice emptyResultsGeo okMeteo 0 adviceGen [nyCity, nowhereCity, tokyoCity] =
      (Except.error (AdvisorErr.gatherFailed
          (GatherErr.geo nowhereName (GeoErr.locationNotFound nowhereName))),
        flatMapL (cityTraceD emptyResultsGeo okMeteo 0) [nyCity]
          ++ [Ev.resolveCity nowhereName, Ev.geoNet nowhereName])
    ∧ (StreamAdvice emptyResultsGeo okMeteo 0 okStreamGen allOkSend
        [nyCity, nowhereCity, tokyoCity]).2.2 = []
    ∧ errCity (GatherErr.geo nowhereName (GeoErr.locationNotFound nowhereName)) = nowhereName
    ∧ containsSub (renderGatherErr (GatherErr.geo nowhereName
        (GeoErr.locationNotFound nowhereName))) nowhereName = true := by
  have hpre := gather_all_ok emptyResultsGeo okMeteo 0 [nyCity] (by decide)
  have hc : cityOutcome emptyResultsGeo okMeteo 0 nowhereCity =
      (Except.error (GatherErr.geo nowhereName (GeoErr.locationNotFound nowhereName)),
        [Ev.resolveCity nowhereName, Ev.geoNet nowhereName]) := by decide
  have h := claim_c1 emptyResultsGeo okMeteo 0 adviceGen okStreamGen allOkSend
    [nyCity] nowhereCity [tokyoCity] _ _ _ _ hpre hc
  exact ⟨h.1, congrArg (fun t => t.2.2) h.2.1, h.2.2.1, h.2.2.2.1⟩

end WeatherAdvisor
